import Mathlib

/-!
Shallow embedding of `src/app.py` (a small Flask question-answering app).

The embedding models:
* `preprocess_question` (app.py lines 18-28): lowercase, strip, remove
  non-word non-space characters, split on whitespace, join with single spaces.
  Character classes model the ASCII fragment of Python's `str.lower`,
  `str.strip`, `\w` and `\s`.
* `generate_answer` (app.py lines 30-87): key check, one outbound HTTP call
  whose behaviour is an explicit `HttpOutcome` parameter, JSON extraction with
  Python `dict.get` / `list[0]` semantics, and the two `except` handlers.
  Python exceptions are modelled with `Except PyExn`; the number of outbound
  calls is recorded explicitly.
* `handle_answer` (app.py lines 94-125): request validation and status mapping.
-/

/-! ## Character classes (ASCII fragment of Python semantics) -/

/-- Model of Python whitespace (`\s`, `str.strip`, `str.split`), ASCII fragment:
space, tab, newline, carriage return, vertical tab, form feed. -/
def isPySpace (c : Char) : Bool :=
  c = ' ' || c = '\t' || c = '\n' || c = '\r' || c = '\x0b' || c = '\x0c'

/-- Model of the regex class `\w` (letters, digits, underscore), ASCII fragment. -/
def isWordChar (c : Char) : Bool :=
  (65 ≤ c.toNat && c.toNat ≤ 90) || (97 ≤ c.toNat && c.toNat ≤ 122) ||
    (48 ≤ c.toNat && c.toNat ≤ 57) || c = '_'

/-- Lowercase ASCII letter. -/
def isLowerAlpha (c : Char) : Bool := 97 ≤ c.toNat && c.toNat ≤ 122

/-- ASCII digit. -/
def isDigitChar (c : Char) : Bool := 48 ≤ c.toNat && c.toNat ≤ 57

/-! ## Preprocessor (`preprocess_question`, app.py lines 18-28)

`Char.toLower` in core Lean is exactly the ASCII fragment of Python's
`str.lower`: it maps `A`-`Z` to `a`-`z` and leaves everything else alone. -/

/-- Model of Python `str.strip()` on a character list: drop whitespace from
both ends. -/
def pyStripChars (l : List Char) : List Char :=
  ((l.dropWhile isPySpace).reverse.dropWhile isPySpace).reverse

/-- Model of Python `str.strip()` on strings. -/
def pyStripString (s : String) : String :=
  String.mk (pyStripChars s.data)

/-- Model of Python `str.split()` with no arguments: split on runs of
whitespace, discarding empty pieces. Structural recursion on the list. -/
def pyWords : List Char → List (List Char)
  | [] => []
  | [c] => if isPySpace c then [] else [[c]]
  | c :: d :: cs =>
    if isPySpace c then pyWords (d :: cs)
    else if isPySpace d then [c] :: pyWords (d :: cs)
    else
      match pyWords (d :: cs) with
      | [] => [[c]]
      | t :: ts => (c :: t) :: ts

/-- Model of Python `" ".join(tokens)`. -/
def joinSpace : List (List Char) → List Char
  | [] => []
  | [t] => t
  | t :: ts => t ++ ' ' :: joinSpace ts

/-- Embedding of `preprocess_question` (app.py lines 18-28):
1. lowercase then strip (line 23),
2. remove every character that is neither a word character nor whitespace
   (line 25, `re.sub` with pattern class excluding word and space),
3. split on whitespace and rejoin with single spaces (lines 27-28). -/
def preprocess_question (s : String) : String :=
  let lowered := s.data.map Char.toLower
  let stripped := pyStripChars lowered
  let filtered := stripped.filter (fun c => isWordChar c || isPySpace c)
  String.mk (joinSpace (pyWords filtered))

theorem preprocess_question_example_empty : preprocess_question ("") = "" := by decide

theorem preprocess_question_example_hello :
    preprocess_question ("  Hello, World!!  ") = "hello world" := by decide

/-! ## JSON values and Python dynamic operations -/

/-- JSON values, as produced by `response.json()` in app.py line 65. An
object represents the parsed Python dict (keys distinct). -/
inductive Json where
  | null : Json
  | bool : Bool → Json
  | num : Int → Json
  | str : String → Json
  | arr : List Json → Json
  | obj : List (String × Json) → Json

/-- Python exceptions relevant to `generate_answer` and `handle_answer`:
`requests.exceptions.RequestException` and every other `Exception`. The
string is the result of `str(e)`. -/
inductive PyExn where
  | reqExn : String → PyExn
  | otherExn : String → PyExn

/-- First-match lookup in a parsed JSON object (Python dict lookup; keys are
distinct in a parsed dict). -/
def jlookup : List (String × Json) → String → Option Json
  | [], _ => none
  | (k, v) :: rest, key => if k = key then some v else jlookup rest key

/-- Model of Python `x.get(key, default)`: dict lookup with default when the
key is absent; `AttributeError` when `x` is not a dict. -/
def pyGet (v : Json) (key : String) (default : Json) : Except PyExn Json :=
  match v with
  | .obj kvs => .ok ((jlookup kvs key).getD default)
  | _ => .error (.otherExn ("AttributeError: object has no attribute get"))

/-- Model of Python `x[0]`: first element of a list; `IndexError` on an empty
list, `TypeError` when `x` is not a list. -/
def pyIndex0 (v : Json) : Except PyExn Json :=
  match v with
  | .arr (x :: _) => .ok x
  | .arr [] => .error (.otherExn ("IndexError: list index out of range"))
  | _ => .error (.otherExn ("TypeError: object is not subscriptable"))

/-! ## Answer Service (`generate_answer`, app.py lines 30-87) -/

/-- The result dict built by `generate_answer`. In the Python source the
`answer` value on the success path is whatever the dynamic extraction
returned, so it is a `Json` value in the model; string answers appear as
`Json.str`. -/
structure AnswerResult where
  error : Bool
  answer : Json
  raw_response : String

/-- Behaviour of the single outbound `requests.post` call (app.py line 55):
either a response arrives (with status code, body text, and the result of
parsing the body as JSON, `none` meaning `response.json()` raises), or the
call raises a `RequestException`, or some other `Exception`. -/
inductive HttpOutcome where
  | response : Nat → String → Option Json → HttpOutcome
  | requestError : String → HttpOutcome
  | otherError : String → HttpOutcome

/-- Truthiness of `GEMINI_API_KEY` in `if not GEMINI_API_KEY` (app.py
line 34): `os.getenv` yields `None` (key unset) or a string, and both `None`
and the empty string are falsy. -/
def keyConfigured : Option String → Bool
  | none => false
  | some s => !s.isEmpty

/-- Embedding of app.py line 68: the chained dynamic extraction
`result.get('candidates', [{}])[0].get('content', {}).get('parts', [{}])[0]
.get('text', 'No answer generated.')`, with each step able to raise. -/
def extract_answer (result : Json) : Except PyExn Json := do
  let cands ← pyGet result ("candidates") (.arr [.obj []])
  let c0 ← pyIndex0 cands
  let content ← pyGet c0 ("content") (.obj [])
  let parts ← pyGet content ("parts") (.arr [.obj []])
  let p0 ← pyIndex0 parts
  pyGet p0 ("text") (.str ("No answer generated."))

/-- Embedding of the `try` block of `generate_answer` (app.py lines 53-74),
given the outcome of the outbound call. A body that fails to parse as JSON
makes `response.json()` raise `requests.exceptions.JSONDecodeError`, a
`RequestException` subclass. -/
def tryBody (o : HttpOutcome) : Except PyExn AnswerResult :=
  match o with
  | .requestError e => .error (.reqExn e)
  | .otherError e => .error (.otherExn e)
  | .response status text jsonBody =>
    if status ≠ 200 then
      .ok { error := true
            answer := .str ("API Error: Status " ++ toString status ++ ". Response: " ++ text)
            raw_response := text }
    else
      match jsonBody with
      | none => .error (.reqExn ("Expecting value: line 1 column 1"))
      | some result => do
        let answer_text ← extract_answer result
        .ok { error := false, answer := answer_text, raw_response := text }

/-- Result of one call to `generate_answer` together with the number of
outbound network calls it attempted. `result` is `Except` so that an
uncaught exception is representable; the function never produces one
(see the safety theorem). -/
structure GenResult where
  result : Except PyExn AnswerResult
  networkCalls : Nat

/-- Embedding of `generate_answer` (app.py lines 30-87). The key check
(lines 34-39) happens before any network call; otherwise the outbound call
happens exactly once, and the two `except` clauses (lines 76-87) convert
`RequestException` and any other `Exception` into result dicts. -/
def generate_answer (key : Option String) (processed_query : String)
    (o : HttpOutcome) : GenResult :=
  if !keyConfigured key then
    { result := .ok
        { error := true
          answer := .str ("GEMINI_API_KEY not configured on the server. Please check your .env file or environment variables.")
          raw_response := "N/A" }
      networkCalls := 0 }
  else
    { result :=
        match tryBody o with
        | .ok r => .ok r
        | .error (.reqExn e) => .ok
            { error := true
              answer := .str ("Connection Error: Could not reach the API endpoint. " ++ e)
              raw_response := e }
        | .error (.otherExn e) => .ok
            { error := true
              answer := .str ("An unexpected server error occurred: " ++ e)
              raw_response := e }
      networkCalls := 1 }

/-! ## Inbound boundary (`handle_answer`, app.py lines 94-125) -/

/-- The JSON body built by `handle_answer`. The validation branch (lines
101-107) includes an `answer` key which the main branch (lines 120-124) does
not; the optional field records its presence. `message` holds
`response_data["answer"]`, hence a `Json` value. -/
structure HandlerResponse where
  error : Bool
  message : Json
  processed : String
  answer : Option Json
  raw_response : String

/-- Model of Python `x.strip()` applied to the value read from the request
body: only strings have `strip`; every other value raises `AttributeError`. -/
def pyStripValue (v : Json) : Except PyExn String :=
  match v with
  | .str s => .ok (pyStripString s)
  | _ => .error (.otherExn ("AttributeError: object has no attribute strip"))

/-- Result of one call to `handle_answer`: either an HTTP status with a JSON
body, or an uncaught Python exception (the handler has no `try`), plus the
number of outbound network calls made further down the pipeline. -/
structure HandlerOutcome where
  result : Except PyExn (Nat × HandlerResponse)
  networkCalls : Nat

/-- Embedding of `handle_answer` (app.py lines 94-125), parameterised by the
configured key and the behaviour of the outbound call. `body` is the parsed
JSON request body (`request.get_json()`, line 97); line 98 reads
`data.get('question', '').strip()`, lines 100-107 reject an empty question
with status 400, and lines 109-125 run the preprocessing pipeline and map
the service's error flag to status 500 or 200. -/
def handle_answer (key : Option String) (o : HttpOutcome) (body : Json) :
    HandlerOutcome :=
  match pyGet body ("question") (.str ("")) with
  | .error e => { result := .error e, networkCalls := 0 }
  | .ok qv =>
    match pyStripValue qv with
    | .error e => { result := .error e, networkCalls := 0 }
    | .ok user_question =>
      if user_question = "" then
        { result := .ok (400,
            { error := true
              message := .str ("Please enter a question.")
              processed := ""
              answer := some (.str ("No question provided."))
              raw_response := "" })
          networkCalls := 0 }
      else
        let processed_query := preprocess_question user_question
        let g := generate_answer key processed_query o
        match g.result with
        | .error e => { result := .error e, networkCalls := g.networkCalls }
        | .ok r =>
          { result := .ok ((if r.error then 500 else 200),
              { error := r.error
                message := r.answer
                processed := processed_query
                answer := none
                raw_response := r.raw_response })
            networkCalls := g.networkCalls }

/-! ## Lemmas about the preprocessor -/

theorem pyWords_good (l : List Char) :
    ∀ t ∈ pyWords l, t ≠ [] ∧ ∀ c ∈ t, isPySpace c = false ∧ c ∈ l := by
  induction l using pyWords.induct with
  | case1 => simp [pyWords]
  | case2 c h => simp [pyWords, h]
  | case3 c h => simp [pyWords, h]
  | case4 c d cs h ih =>
    intro t ht
    rw [pyWords, if_pos h] at ht
    have := ih t ht
    exact ⟨this.1, fun x hx => ⟨(this.2 x hx).1, List.mem_cons_of_mem _ (this.2 x hx).2⟩⟩
  | case5 c d cs h h2 ih =>
    intro t ht
    rw [pyWords, if_neg h, if_pos h2] at ht
    rcases List.mem_cons.mp ht with rfl | ht'
    · refine ⟨by simp, ?_⟩
      intro x hx
      rcases List.mem_singleton.mp hx with rfl
      exact ⟨by simpa using h, List.mem_cons_self _ _⟩
    · have := ih t ht'
      exact ⟨this.1, fun x hx => ⟨(this.2 x hx).1, List.mem_cons_of_mem _ (this.2 x hx).2⟩⟩
  | case6 c d cs h h2 heq ih =>
    intro t ht
    rw [pyWords, if_neg h, if_neg h2, heq] at ht
    rcases List.mem_singleton.mp ht with rfl
    refine ⟨by simp, ?_⟩
    intro x hx
    rcases List.mem_singleton.mp hx with rfl
    exact ⟨by simpa using h, List.mem_cons_self _ _⟩
  | case7 c d cs h h2 t ts heq ih =>
    intro u hu
    rw [pyWords, if_neg h, if_neg h2, heq] at hu
    rcases List.mem_cons.mp hu with rfl | hu'
    · have htt := ih t (heq ▸ List.mem_cons_self _ _)
      refine ⟨by simp, ?_⟩
      intro x hx
      rcases List.mem_cons.mp hx with rfl | hx'
      · exact ⟨by simpa using h, List.mem_cons_self _ _⟩
      · exact ⟨(htt.2 x hx').1, List.mem_cons_of_mem _ (htt.2 x hx').2⟩
    · have := ih u (heq ▸ List.mem_cons_of_mem _ hu')
      exact ⟨this.1, fun x hx => ⟨(this.2 x hx).1, List.mem_cons_of_mem _ (this.2 x hx).2⟩⟩

theorem pyWords_cons_space {c : Char} (hc : isPySpace c = true) (l : List Char) :
    pyWords (c :: l) = pyWords l := by
  cases l with
  | nil => simp [pyWords, hc]
  | cons d cs => rw [pyWords, if_pos hc]

theorem pyWords_token (c : Char) (t : List Char)
    (h : ∀ x ∈ c :: t, isPySpace x = false) : pyWords (c :: t) = [c :: t] := by
  induction t generalizing c with
  | nil => simp [pyWords, h c (List.mem_cons_self _ _)]
  | cons c' t2 ih =>
    have hc : isPySpace c = false := h c (List.mem_cons_self _ _)
    have hc' : isPySpace c' = false := h c' (List.mem_cons_of_mem _ (List.mem_cons_self _ _))
    rw [pyWords, if_neg (by simp [hc]), if_neg (by simp [hc']),
      ih c' (fun x hx => h x (List.mem_cons_of_mem _ hx))]

theorem pyWords_token_append (c : Char) (t : List Char)
    (h : ∀ x ∈ c :: t, isPySpace x = false) (l : List Char) :
    pyWords ((c :: t) ++ ' ' :: l) = (c :: t) :: pyWords l := by
  induction t generalizing c with
  | nil =>
    have hc : isPySpace c = false := h c (List.mem_cons_self _ _)
    rw [List.cons_append, List.nil_append, pyWords, if_neg (by simp [hc]),
      if_pos (by decide), pyWords_cons_space (by decide)]
  | cons c' t2 ih =>
    have hc : isPySpace c = false := h c (List.mem_cons_self _ _)
    have hc' : isPySpace c' = false := h c' (List.mem_cons_of_mem _ (List.mem_cons_self _ _))
    have ih' := ih c' (fun x hx => h x (List.mem_cons_of_mem _ hx))
    simp only [List.cons_append] at ih' ⊢
    rw [pyWords, if_neg (by simp [hc]), if_neg (by simp [hc']), ih']

theorem joinSpace_single (t : List Char) : joinSpace [t] = t := rfl

theorem joinSpace_cons_cons (t u : List Char) (ts : List (List Char)) :
    joinSpace (t :: u :: ts) = t ++ ' ' :: joinSpace (u :: ts) := rfl

theorem pyWords_joinSpace (ts : List (List Char))
    (h : ∀ t ∈ ts, t ≠ [] ∧ ∀ c ∈ t, isPySpace c = false) :
    pyWords (joinSpace ts) = ts := by
  induction ts with
  | nil => rfl
  | cons t ts' ih =>
    have ht := h t (List.mem_cons_self _ _)
    obtain ⟨c, t2, rfl⟩ : ∃ c t2, t = c :: t2 := by
      cases t with
      | nil => exact absurd rfl ht.1
      | cons c t2 => exact ⟨c, t2, rfl⟩
    cases ts' with
    | nil => rw [joinSpace_single, pyWords_token c t2 ht.2]
    | cons t2' ts'' =>
      rw [joinSpace_cons_cons, pyWords_token_append c t2 ht.2,
        ih (fun u hu => h u (List.mem_cons_of_mem _ hu))]

theorem joinSpace_mem {ts : List (List Char)} {c : Char} (hc : c ∈ joinSpace ts) :
    c = ' ' ∨ ∃ t ∈ ts, c ∈ t := by
  induction ts with
  | nil => simp [joinSpace] at hc
  | cons t ts' ih =>
    cases ts' with
    | nil =>
      rw [joinSpace_single] at hc
      exact Or.inr ⟨t, List.mem_cons_self _ _, hc⟩
    | cons t2' ts'' =>
      rw [joinSpace_cons_cons] at hc
      rcases List.mem_append.mp hc with h1 | h2
      · exact Or.inr ⟨t, List.mem_cons_self _ _, h1⟩
      · rcases List.mem_cons.mp h2 with rfl | h3
        · exact Or.inl rfl
        · rcases ih h3 with h4 | ⟨u, hu, hcu⟩
          · exact Or.inl h4
          · exact Or.inr ⟨u, List.mem_cons_of_mem _ hu, hcu⟩

theorem chain'_of_no_space {l : List Char} (h : ∀ a ∈ l, a ≠ ' ') :
    l.Chain' (fun a b => ¬(a = ' ' ∧ b = ' ')) := by
  induction l with
  | nil => exact List.chain'_nil
  | cons a l ih =>
    rw [List.chain'_cons']
    refine ⟨fun y _ => fun hab => absurd hab.1 (h a (List.mem_cons_self _ _)), ?_⟩
    exact ih (fun x hx => h x (List.mem_cons_of_mem _ hx))

theorem joinSpace_cons_ne_nil {t : List Char} (ht : t ≠ []) (ts : List (List Char)) :
    joinSpace (t :: ts) ≠ [] := by
  cases ts with
  | nil => simpa [joinSpace_single] using ht
  | cons u ts' =>
    rw [joinSpace_cons_cons]
    simp [ht]

theorem joinSpace_wf (ts : List (List Char))
    (h : ∀ t ∈ ts, t ≠ [] ∧ ∀ c ∈ t, isPySpace c = false) :
    (∀ x, (joinSpace ts).head? = some x → isPySpace x = false) ∧
    (∀ x, (joinSpace ts).getLast? = some x → isPySpace x = false) ∧
    (joinSpace ts).Chain' (fun a b => ¬(a = ' ' ∧ b = ' ')) := by
  induction ts with
  | nil => simp [joinSpace]
  | cons t ts' ih =>
    have ht := h t (List.mem_cons_self _ _)
    have hchar : ∀ a ∈ t, a ≠ ' ' := by
      intro a ha hsp
      have h0 := ht.2 a ha
      rw [hsp] at h0
      exact absurd h0 (by decide)
    cases ts' with
    | nil =>
      rw [joinSpace_single]
      refine ⟨fun x hx => ht.2 x (List.mem_of_mem_head? hx),
        fun x hx => ht.2 x (List.mem_of_mem_getLast? hx),
        chain'_of_no_space hchar⟩
    | cons t2' ts'' =>
      have ih' := ih (fun u hu => h u (List.mem_cons_of_mem _ hu))
      have hne : joinSpace (t2' :: ts'') ≠ [] :=
        joinSpace_cons_ne_nil (h t2' (List.mem_cons_of_mem _ (List.mem_cons_self _ _))).1 _
      rw [joinSpace_cons_cons]
      refine ⟨?_, ?_, ?_⟩
      · intro x hx
        rw [List.head?_append] at hx
        cases t with
        | nil => exact absurd rfl ht.1
        | cons a t0 =>
          simp only [List.head?_cons, Option.or_some, Option.some.injEq] at hx
          subst hx
          exact ht.2 _ (List.mem_cons_self _ _)
      · intro x hx
        have h5 : (' ' :: joinSpace (t2' :: ts'')) = [' '] ++ joinSpace (t2' :: ts'') := rfl
        rw [List.getLast?_append, h5, List.getLast?_append] at hx
        rcases h3 : (joinSpace (t2' :: ts'')).getLast? with _ | y
        · exact absurd (List.getLast?_eq_none_iff.mp h3) hne
        · rw [h3] at hx
          simp only [Option.or_some, Option.some.injEq] at hx
          subst hx
          exact ih'.2.1 _ h3
      · rw [List.chain'_append]
        refine ⟨chain'_of_no_space hchar, ?_, ?_⟩
        · rw [List.chain'_cons']
          refine ⟨?_, ih'.2.2⟩
          intro y hy hab
          have hy' := ih'.1 y (Option.mem_def.mp hy)
          rw [hab.2] at hy'
          exact absurd hy' (by decide)
        · intro x hx y hy hab
          exact absurd hab.1 (hchar x (List.mem_of_mem_getLast? hx))




theorem char_toNat_ofNat {n : Nat} (h : n.isValidChar) : (Char.ofNat n).toNat = n := by
  simp [Char.ofNat, h, Char.ofNatAux, Char.toNat, UInt32.toNat]

theorem toLower_not_upper (c : Char) :
    ¬(65 ≤ (Char.toLower c).toNat ∧ (Char.toLower c).toNat ≤ 90) := by
  unfold Char.toLower
  by_cases h : Char.toNat c ≥ 65 ∧ Char.toNat c ≤ 90
  · rw [if_pos h]
    have hv : (Char.toNat c + 32).isValidChar := by left; omega
    rw [char_toNat_ofNat hv]
    omega
  · rw [if_neg h]
    omega

theorem toLower_eq_self {c : Char} (h : ¬(65 ≤ c.toNat ∧ c.toNat ≤ 90)) :
    Char.toLower c = c := by
  unfold Char.toLower
  exact if_neg (fun hc => h ⟨hc.1, hc.2⟩)

theorem dropWhile_space_eq_self {l : List Char}
    (h : ∀ x, l.head? = some x → isPySpace x = false) :
    l.dropWhile isPySpace = l := by
  cases l with
  | nil => rfl
  | cons c cs =>
    rw [List.dropWhile_cons, if_neg]
    rw [h c rfl]
    simp

theorem pyStripChars_eq_self {l : List Char}
    (h1 : ∀ x, l.head? = some x → isPySpace x = false)
    (h2 : ∀ x, l.getLast? = some x → isPySpace x = false) :
    pyStripChars l = l := by
  unfold pyStripChars
  rw [dropWhile_space_eq_self h1]
  rw [dropWhile_space_eq_self (by simpa using h2), List.reverse_reverse]

theorem mem_pyStripChars {l : List Char} {c : Char} (hc : c ∈ pyStripChars l) :
    c ∈ l := by
  unfold pyStripChars at hc
  rw [List.mem_reverse] at hc
  have h1 := (List.dropWhile_sublist isPySpace).subset hc
  rw [List.mem_reverse] at h1
  exact (List.dropWhile_sublist isPySpace).subset h1

theorem preprocess_question_def (s : String) :
    preprocess_question s =
      String.mk (joinSpace (pyWords ((pyStripChars (s.data.map Char.toLower)).filter
        (fun c => isWordChar c || isPySpace c)))) := rfl

theorem preprocess_chars {s : String} {c : Char}
    (hc : c ∈ (preprocess_question s).data) :
    c = ' ' ∨ (isWordChar c = true ∧ isPySpace c = false ∧
      ¬(65 ≤ c.toNat ∧ c.toNat ≤ 90)) := by
  rw [preprocess_question_def] at hc
  rcases joinSpace_mem hc with h | ⟨t, ht, hct⟩
  · exact Or.inl h
  · have hg := (pyWords_good _ t ht).2 c hct
    have hmem := hg.2
    rw [List.mem_filter] at hmem
    have hword : isWordChar c = true := by
      rcases Bool.or_eq_true_iff.mp hmem.2 with h | h
      · exact h
      · rw [hg.1] at h; cases h
    have hlow : ¬(65 ≤ c.toNat ∧ c.toNat ≤ 90) := by
      have := mem_pyStripChars hmem.1
      rw [List.mem_map] at this
      obtain ⟨d, _, rfl⟩ := this
      exact toLower_not_upper d
    exact Or.inr ⟨hword, hg.1, hlow⟩



theorem preprocess_struct (s : String) :
    (∀ x, (preprocess_question s).data.head? = some x → isPySpace x = false) ∧
    (∀ x, (preprocess_question s).data.getLast? = some x → isPySpace x = false) ∧
    (preprocess_question s).data.Chain' (fun a b => ¬(a = ' ' ∧ b = ' ')) := by
  rw [preprocess_question_def]
  exact joinSpace_wf _
    (fun t ht => ⟨(pyWords_good _ t ht).1, fun c hc => ((pyWords_good _ t ht).2 c hc).1⟩)

theorem preprocess_fixed {r : String}
    (hchars : ∀ c ∈ r.data, c = ' ' ∨ (isWordChar c = true ∧ isPySpace c = false ∧
      ¬(65 ≤ c.toNat ∧ c.toNat ≤ 90)))
    (hhead : ∀ x, r.data.head? = some x → isPySpace x = false)
    (hlast : ∀ x, r.data.getLast? = some x → isPySpace x = false)
    (hjoin : ∃ ts, (∀ t ∈ ts, t ≠ [] ∧ ∀ c ∈ t, isPySpace c = false) ∧
      r.data = joinSpace ts) :
    preprocess_question r = r := by
  obtain ⟨ts, hts, hr⟩ := hjoin
  have hmap : r.data.map Char.toLower = r.data := by
    have h1 : ∀ c ∈ r.data, Char.toLower c = id c := by
      intro c hc
      rcases hchars c hc with rfl | ⟨_, _, hup⟩
      · exact toLower_eq_self (by decide)
      · exact toLower_eq_self hup
    rw [List.map_congr_left h1, List.map_id]
  have hstrip : pyStripChars r.data = r.data := pyStripChars_eq_self hhead hlast
  have hfilter : r.data.filter (fun c => isWordChar c || isPySpace c) = r.data := by
    rw [List.filter_eq_self]
    intro a ha
    rcases hchars a ha with rfl | ⟨hw, _, _⟩
    · simp [isPySpace]
    · simp [hw]
  rw [preprocess_question_def, hmap, hstrip, hfilter, hr, pyWords_joinSpace ts hts, ← hr]

theorem preprocess_question_charset {s : String} {c : Char}
    (hc : c ∈ (preprocess_question s).data) :
    isLowerAlpha c = true ∨ isDigitChar c = true ∨ c = '_' ∨ c = ' ' := by
  rcases preprocess_chars hc with rfl | ⟨hw, _, hup⟩
  · right; right; right; rfl
  · simp only [isWordChar, Bool.or_eq_true, Bool.and_eq_true, decide_eq_true_eq] at hw
    rcases hw with ((h | h) | h) | h
    · exact absurd ⟨h.1, h.2⟩ hup
    · left; simp only [isLowerAlpha, Bool.and_eq_true, decide_eq_true_eq]; exact h
    · right; left; simp only [isDigitChar, Bool.and_eq_true, decide_eq_true_eq]; exact h
    · right; right; left; exact h

/-! ## Claim theorems about the preprocessor -/

/-- C5: for every input string `s`, `preprocess_question` is idempotent:
`preprocess_question (preprocess_question s) = preprocess_question s`. -/
theorem preprocess_question_idempotent (s : String) :
    preprocess_question (preprocess_question s) = preprocess_question s := by
  refine preprocess_fixed (fun c hc => preprocess_chars hc)
    (preprocess_struct s).1 (preprocess_struct s).2.1 ?_
  refine ⟨pyWords ((pyStripChars (s.data.map Char.toLower)).filter
    (fun c => isWordChar c || isPySpace c)), ?_, rfl⟩
  exact fun t ht => ⟨(pyWords_good _ t ht).1, fun c hc => ((pyWords_good _ t ht).2 c hc).1⟩

/-- C6: for every input string (including the empty string),
`preprocess_question` is total (it is a Lean function) and its result
contains only lowercase ASCII letters, digits, underscore and single interior
spaces: no leading or trailing space, no two adjacent spaces, and the empty
input yields the empty output. -/
theorem preprocess_question_output_shape :
    (∀ s : String, (∀ c ∈ (preprocess_question s).data,
        isLowerAlpha c = true ∨ isDigitChar c = true ∨ c = '_' ∨ c = ' ') ∧
      (preprocess_question s).data.head? ≠ some ' ' ∧
      (preprocess_question s).data.getLast? ≠ some ' ' ∧
      List.Chain' (fun a b => ¬(a = ' ' ∧ b = ' ')) (preprocess_question s).data) ∧
    preprocess_question ("") = "" := by
  refine ⟨fun s => ⟨fun c hc => preprocess_question_charset hc, ?_, ?_,
    (preprocess_struct s).2.2⟩, rfl⟩
  · intro h
    exact absurd ((preprocess_struct s).1 ' ' h) (by decide)
  · intro h
    exact absurd ((preprocess_struct s).2.1 ' ' h) (by decide)

/-- Witness for C6: a concrete instantiation on the spec's own example input,
with the membership hypothesis discharged on a concrete character. -/
theorem preprocess_question_output_shape_witness :
    isLowerAlpha 'h' = true ∨ isDigitChar 'h' = true ∨ 'h' = '_' ∨ 'h' = ' ' :=
  (preprocess_question_output_shape.1 ("  Hello, World!!  ")).1 'h' (by decide)

/-! ## Equation lemmas for the Answer Service -/

/-- Missing or empty key: short-circuit, no network call (app.py lines 34-39). -/
theorem generate_answer_key_missing (key : Option String)
    (hk : keyConfigured key = false) (q : String) (o : HttpOutcome) :
    generate_answer key q o =
      ⟨.ok (AnswerResult.mk true
        (.str ("GEMINI_API_KEY not configured on the server. Please check your .env file or environment variables."))
        ("N/A")), 0⟩ := by
  simp [generate_answer, hk]

/-- A transport-level `RequestException` is converted by the first handler
(app.py lines 76-81). -/
theorem generate_answer_requestError {key : Option String}
    (hk : keyConfigured key = true) (q e : String) :
    generate_answer key q (.requestError e) =
      ⟨.ok (AnswerResult.mk true
        (.str ("Connection Error: Could not reach the API endpoint. " ++ e)) e), 1⟩ := by
  simp [generate_answer, hk, tryBody]

/-- Any other exception from the call is converted by the second handler
(app.py lines 82-87). -/
theorem generate_answer_otherError {key : Option String}
    (hk : keyConfigured key = true) (q e : String) :
    generate_answer key q (.otherError e) =
      ⟨.ok (AnswerResult.mk true
        (.str ("An unexpected server error occurred: " ++ e)) e), 1⟩ := by
  simp [generate_answer, hk, tryBody]

/-- Non-200 status (app.py lines 58-63). -/
theorem generate_answer_badStatus {key : Option String}
    (hk : keyConfigured key = true) (q : String) {status : Nat}
    (hs : status ≠ 200) (body : String) (jb : Option Json) :
    generate_answer key q (.response status body jb) =
      ⟨.ok (AnswerResult.mk true
        (.str ("API Error: Status " ++ toString status ++ ". Response: " ++ body)) body), 1⟩ := by
  simp [generate_answer, hk, tryBody, hs]

/-- Status 200 with successful extraction (app.py lines 65-74). -/
theorem generate_answer_extract_ok {key : Option String}
    (hk : keyConfigured key = true) (q body : String) {j a : Json}
    (hx : extract_answer j = .ok a) :
    generate_answer key q (.response 200 body (some j)) =
      ⟨.ok (AnswerResult.mk false a body), 1⟩ := by
  simp only [generate_answer, hk, tryBody, hx, Bool.not_true, Bool.false_eq_true, if_false]
  rfl

/-- Status 200 where the extraction raises an `Exception` other than a
`RequestException`; the second handler converts it (app.py lines 82-87). -/
theorem generate_answer_extract_otherExn {key : Option String}
    (hk : keyConfigured key = true) (q body : String) {j : Json} {e : String}
    (hx : extract_answer j = .error (.otherExn e)) :
    generate_answer key q (.response 200 body (some j)) =
      ⟨.ok (AnswerResult.mk true
        (.str ("An unexpected server error occurred: " ++ e)) e), 1⟩ := by
  simp only [generate_answer, hk, tryBody, hx, Bool.not_true, Bool.false_eq_true, if_false]
  rfl

/-- Status 200 with a body that is not valid JSON; `response.json()` raises
a `RequestException` subclass, converted by the first handler. -/
theorem generate_answer_noJson {key : Option String}
    (hk : keyConfigured key = true) (q body : String) :
    generate_answer key q (.response 200 body none) =
      ⟨.ok (AnswerResult.mk true
        (.str ("Connection Error: Could not reach the API endpoint. " ++ "Expecting value: line 1 column 1"))
        ("Expecting value: line 1 column 1")), 1⟩ := by
  simp [generate_answer, hk, tryBody]

/-- Status 200 where the extraction raises a `RequestException`; the first
handler converts it (app.py lines 76-81). This branch is unreachable for the
extraction modelled here but is part of the case split. -/
theorem generate_answer_extract_reqExn {key : Option String}
    (hk : keyConfigured key = true) (q body : String) {j : Json} {e : String}
    (hx : extract_answer j = .error (.reqExn e)) :
    generate_answer key q (.response 200 body (some j)) =
      ⟨.ok (AnswerResult.mk true
        (.str ("Connection Error: Could not reach the API endpoint. " ++ e)) e), 1⟩ := by
  simp only [generate_answer, hk, tryBody, hx, Bool.not_true, Bool.false_eq_true, if_false]
  rfl

/-- Bind of a successful `Except` computation reduces to the continuation. -/
theorem except_bind_ok {ε α β : Type} (a : α) (f : α → Except ε β) :
    ((Except.ok a : Except ε α) >>= f) = f a := rfl

/-- Bind of a failed `Except` computation propagates the failure. -/
theorem except_bind_err {ε α β : Type} (e : ε) (f : α → Except ε β) :
    ((Except.error e : Except ε α) >>= f) = .error e := rfl

/-! ## Claim theorems about the Answer Service -/

/-- C1 (amended): for every key configuration, query and outbound behaviour,
`generate_answer` returns a result record and never propagates an exception;
the record's `error` field is a `Bool` and `raw_response` a `String` by
construction, and the `answer` field is a string on every path except
possibly the status-200 extraction path, where it is whatever JSON value the
extraction produced. -/
theorem generate_answer_never_raises (key : Option String) (q : String)
    (o : HttpOutcome) :
    ∃ r : AnswerResult, (generate_answer key q o).result = .ok r ∧
      ((∃ a : String, r.answer = Json.str a) ∨
        (r.error = false ∧ ∃ body jb, o = .response 200 body jb)) := by
  cases hkc : keyConfigured key with
  | false =>
    rw [generate_answer_key_missing key hkc]
    exact ⟨_, rfl, Or.inl ⟨_, rfl⟩⟩
  | true =>
    rcases o with ⟨status, body, jb⟩ | e | e
    · by_cases hs : status = 200
      · subst hs
        rcases jb with _ | j
        · rw [generate_answer_noJson hkc]
          exact ⟨_, rfl, Or.inl ⟨_, rfl⟩⟩
        · rcases hx : extract_answer j with e | a
          · rcases e with e | e
            · rw [generate_answer_extract_reqExn hkc q body hx]
              exact ⟨_, rfl, Or.inl ⟨_, rfl⟩⟩
            · rw [generate_answer_extract_otherExn hkc q body hx]
              exact ⟨_, rfl, Or.inl ⟨_, rfl⟩⟩
          · rw [generate_answer_extract_ok hkc q body hx]
            exact ⟨_, rfl, Or.inr ⟨rfl, body, some j, rfl⟩⟩
      · rw [generate_answer_badStatus hkc q hs body jb]
        exact ⟨_, rfl, Or.inl ⟨_, rfl⟩⟩
    · rw [generate_answer_requestError hkc q e]
      exact ⟨_, rfl, Or.inl ⟨_, rfl⟩⟩
    · rw [generate_answer_otherError hkc q e]
      exact ⟨_, rfl, Or.inl ⟨_, rfl⟩⟩

/-- C1 counterexample: with a success response whose `text` field holds the
JSON number 123, the returned `answer` field is not a string, so the claim
that every return is a record whose `answer` is a string fails. -/
theorem generate_answer_nonstring_answer :
    (generate_answer (some ("k")) ("q") (.response 200 ("body") (some (.obj
      [("candidates", .arr [.obj [("content", .obj [("parts", .arr
        [.obj [("text", .num 123)]])])]])])))).result =
      .ok (AnswerResult.mk false (.num 123) ("body")) ∧
    ∀ a : String, Json.num 123 ≠ Json.str a :=
  ⟨rfl, fun _ h => Json.noConfusion h⟩

/-- C3: with no API key configured, `generate_answer` returns the
configuration-missing record with `raw_response = "N/A"` and makes no
outbound network call, for every query and every outbound behaviour. -/
theorem generate_answer_no_key (q : String) (o : HttpOutcome) :
    generate_answer none q o =
      ⟨.ok (AnswerResult.mk true
        (.str ("GEMINI_API_KEY not configured on the server. Please check your .env file or environment variables."))
        ("N/A")), 0⟩ :=
  generate_answer_key_missing none rfl q o

/-- C9: a key configured as the empty string is treated exactly like an
absent key: same configuration-missing result, no outbound network call. -/
theorem generate_answer_empty_key_like_absent (q : String) (o : HttpOutcome) :
    generate_answer (some ("")) q o = generate_answer none q o ∧
    generate_answer (some ("")) q o =
      ⟨.ok (AnswerResult.mk true
        (.str ("GEMINI_API_KEY not configured on the server. Please check your .env file or environment variables."))
        ("N/A")), 0⟩ := by
  rw [generate_answer_key_missing (some ("")) rfl,
    generate_answer_key_missing none rfl]
  exact ⟨rfl, rfl⟩

/-- C7: with a key configured, a non-success HTTP status (any status other
than 200) yields `error = true`, an answer containing the status code and
the body, and `raw_response` equal to the raw body text. -/
theorem generate_answer_http_error (key : Option String) (q : String)
    (status : Nat) (body : String) (jb : Option Json)
    (hk : keyConfigured key = true) (hs : status ≠ 200) :
    generate_answer key q (.response status body jb) =
      ⟨.ok (AnswerResult.mk true
        (.str ("API Error: Status " ++ toString status ++ ". Response: " ++ body)) body), 1⟩ :=
  generate_answer_badStatus hk q hs body jb

/-- Witness for C7 at status 429, matching the spec's test sentence. -/
theorem generate_answer_http_error_witness :
    keyConfigured (some ("k")) = true ∧ (429 : Nat) ≠ 200 ∧
    generate_answer (some ("k")) ("q") (.response 429 ("quota") none) =
      ⟨.ok (AnswerResult.mk true
        (.str ("API Error: Status 429. Response: quota")) ("quota")), 1⟩ :=
  ⟨rfl, by decide, generate_answer_http_error (some ("k")) ("q") 429 ("quota") none rfl (by decide)⟩

/-- C8: with a key configured, a transport-level failure yields
`error = true`, an answer containing the connection-error description with
the transport error detail, and `raw_response` equal to the stringified
error. -/
theorem generate_answer_transport_error (key : Option String) (q e : String)
    (hk : keyConfigured key = true) :
    generate_answer key q (.requestError e) =
      ⟨.ok (AnswerResult.mk true
        (.str ("Connection Error: Could not reach the API endpoint. " ++ e)) e), 1⟩ :=
  generate_answer_requestError hk q e

/-- Witness for C8 on a concrete timeout message. -/
theorem generate_answer_transport_error_witness :
    keyConfigured (some ("k")) = true ∧
    generate_answer (some ("k")) ("q") (.requestError ("connection timed out")) =
      ⟨.ok (AnswerResult.mk true
        (.str ("Connection Error: Could not reach the API endpoint. connection timed out"))
        ("connection timed out")), 1⟩ :=
  ⟨rfl, generate_answer_transport_error (some ("k")) ("q") ("connection timed out") rfl⟩

/-- C2 counterexample: a success (200) response whose JSON body is the
well-formed object with `candidates` present but empty. The first-candidate
level of the structure is absent, yet the code raises `IndexError` on
`[][0]` and returns `error = true` with an unexpected-error message, not
`error = false` with the placeholder. -/
theorem generate_answer_empty_candidates_error :
    (generate_answer (some ("k")) ("q") (.response 200 ("body")
      (some (.obj [("candidates", .arr [])])))).result =
      .ok (AnswerResult.mk true
        (.str ("An unexpected server error occurred: IndexError: list index out of range"))
        ("IndexError: list index out of range")) := rfl

/-- C2 (amended): for every query, on HTTP status 200 with a body parsing as
a JSON object, the extraction follows `dict.get` defaults: when the full
`candidates[0].content.parts[0].text` path exists (object levels are
objects, list levels are non-empty lists) the result is `error = false` with
`answer` equal to the value at `text`; when any of the four keys is missing
at its (object-typed) level the result is `error = false` with the
placeholder; but when the `candidates` list is present and empty, the
`IndexError` path returns `error = true` with an unexpected-error message. -/
theorem generate_answer_success_extraction (key : Option String)
    (q body : String) (hk : keyConfigured key = true) :
    (∀ (kvs kvs1 kvs2 kvs3 : List (String × Json)) (cs ps : List Json) (t : Json),
      jlookup kvs ("candidates") = some (.arr (.obj kvs1 :: cs)) →
      jlookup kvs1 ("content") = some (.obj kvs2) →
      jlookup kvs2 ("parts") = some (.arr (.obj kvs3 :: ps)) →
      jlookup kvs3 ("text") = some t →
      generate_answer key q (.response 200 body (some (.obj kvs))) =
        ⟨.ok (AnswerResult.mk false t body), 1⟩) ∧
    (∀ kvs : List (String × Json), jlookup kvs ("candidates") = none →
      generate_answer key q (.response 200 body (some (.obj kvs))) =
        ⟨.ok (AnswerResult.mk false (.str ("No answer generated.")) body), 1⟩) ∧
    (∀ (kvs kvs1 : List (String × Json)) (cs : List Json),
      jlookup kvs ("candidates") = some (.arr (.obj kvs1 :: cs)) →
      jlookup kvs1 ("content") = none →
      generate_answer key q (.response 200 body (some (.obj kvs))) =
        ⟨.ok (AnswerResult.mk false (.str ("No answer generated.")) body), 1⟩) ∧
    (∀ (kvs kvs1 kvs2 : List (String × Json)) (cs : List Json),
      jlookup kvs ("candidates") = some (.arr (.obj kvs1 :: cs)) →
      jlookup kvs1 ("content") = some (.obj kvs2) →
      jlookup kvs2 ("parts") = none →
      generate_answer key q (.response 200 body (some (.obj kvs))) =
        ⟨.ok (AnswerResult.mk false (.str ("No answer generated.")) body), 1⟩) ∧
    (∀ (kvs kvs1 kvs2 kvs3 : List (String × Json)) (cs ps : List Json),
      jlookup kvs ("candidates") = some (.arr (.obj kvs1 :: cs)) →
      jlookup kvs1 ("content") = some (.obj kvs2) →
      jlookup kvs2 ("parts") = some (.arr (.obj kvs3 :: ps)) →
      jlookup kvs3 ("text") = none →
      generate_answer key q (.response 200 body (some (.obj kvs))) =
        ⟨.ok (AnswerResult.mk false (.str ("No answer generated.")) body), 1⟩) ∧
    (∀ kvs : List (String × Json), jlookup kvs ("candidates") = some (.arr []) →
      generate_answer key q (.response 200 body (some (.obj kvs))) =
        ⟨.ok (AnswerResult.mk true
          (.str ("An unexpected server error occurred: IndexError: list index out of range"))
          ("IndexError: list index out of range")), 1⟩) := by
  refine ⟨?_, ?_, ?_, ?_, ?_, ?_⟩
  · intro kvs kvs1 kvs2 kvs3 cs ps t h1 h2 h3 h4
    refine generate_answer_extract_ok hk q body ?_
    simp [extract_answer, pyGet, pyIndex0, jlookup, h1, h2, h3, h4,
      except_bind_ok, except_bind_err]
  · intro kvs h1
    refine generate_answer_extract_ok hk q body ?_
    simp [extract_answer, pyGet, pyIndex0, jlookup, h1, except_bind_ok, except_bind_err]
  · intro kvs kvs1 cs h1 h2
    refine generate_answer_extract_ok hk q body ?_
    simp [extract_answer, pyGet, pyIndex0, jlookup, h1, h2, except_bind_ok, except_bind_err]
  · intro kvs kvs1 kvs2 cs h1 h2 h3
    refine generate_answer_extract_ok hk q body ?_
    simp [extract_answer, pyGet, pyIndex0, jlookup, h1, h2, h3, except_bind_ok, except_bind_err]
  · intro kvs kvs1 kvs2 kvs3 cs ps h1 h2 h3 h4
    refine generate_answer_extract_ok hk q body ?_
    simp [extract_answer, pyGet, pyIndex0, jlookup, h1, h2, h3, h4,
      except_bind_ok, except_bind_err]
  · intro kvs h1
    refine generate_answer_extract_otherExn hk q body ?_
    simp [extract_answer, pyGet, pyIndex0, jlookup, h1, except_bind_ok, except_bind_err]

/-- Witness for C2 on the spec's "Paris" example: full path present. -/
theorem generate_answer_success_extraction_witness :
    keyConfigured (some ("k")) = true ∧
    generate_answer (some ("k")) ("q") (.response 200 ("raw")
      (some (.obj [("candidates", .arr [.obj [("content", .obj [("parts", .arr
        [.obj [("text", .str ("Paris"))]])])]])]))) =
      ⟨.ok (AnswerResult.mk false (.str ("Paris")) ("raw")), 1⟩ :=
  ⟨rfl, (generate_answer_success_extraction (some ("k")) ("q") ("raw") rfl).1
    [("candidates", .arr [.obj [("content", .obj [("parts", .arr
      [.obj [("text", .str ("Paris"))]])])]])]
    [("content", .obj [("parts", .arr [.obj [("text", .str ("Paris"))]])])]
    [("parts", .arr [.obj [("text", .str ("Paris"))]])]
    [("text", .str ("Paris"))] [] [] (.str ("Paris")) rfl rfl rfl rfl⟩

/-! ## Claim theorems about the inbound handler -/

/-- Stripping a string made of whitespace only yields the empty list. -/
theorem pyStripChars_all_space {l : List Char} (h : ∀ c ∈ l, isPySpace c = true) :
    pyStripChars l = [] := by
  unfold pyStripChars
  rw [List.dropWhile_eq_nil_iff.mpr h]
  rfl

/-- The fixed 400 rejection produced by app.py lines 100-107. -/
def reject400 : HandlerOutcome :=
  ⟨.ok (400, HandlerResponse.mk true (.str ("Please enter a question.")) ("")
    (some (.str ("No question provided."))) ("")), 0⟩

/-- C10: a question consisting only of whitespace characters is rejected
exactly like an empty one: HTTP 400, `error = true`, `processed = ""`, no
outbound call, independently of the key and of the outbound behaviour. -/
theorem handle_answer_whitespace_question (key : Option String)
    (o : HttpOutcome) (s : String) (h : ∀ c ∈ s.data, isPySpace c = true) :
    handle_answer key o (.obj [("question", .str s)]) = reject400 := by
  have hstrip : pyStripString s = "" := by
    unfold pyStripString
    rw [pyStripChars_all_space h]
  simp [handle_answer, pyGet, jlookup, pyStripValue, hstrip, reject400]

/-- Witness for C10 on a two-space question. -/
theorem handle_answer_whitespace_question_witness :
    (∀ c ∈ ("  " : String).data, isPySpace c = true) ∧
    handle_answer (some ("k")) (.requestError ("boom"))
      (.obj [("question", .str ("  "))]) = reject400 :=
  ⟨by decide, handle_answer_whitespace_question (some ("k")) (.requestError ("boom"))
    ("  ") (by decide)⟩

/-- C4 counterexample: a JSON object body whose `question` field holds the
number 5. The field is present and not empty, and the Answer Service is
never consulted; `5 .strip()` raises `AttributeError`, so the handler
produces no 400/500/200 response at all, contradicting the claimed
trichotomy. -/
theorem handle_answer_nonstring_question_raises :
    (handle_answer (some ("k")) (.response 200 ("body") none)
      (.obj [("question", .num 5)])).result =
      .error (.otherExn ("AttributeError: object has no attribute strip")) ∧
    ∀ (status : Nat) (resp : HandlerResponse),
      (handle_answer (some ("k")) (.response 200 ("body") none)
        (.obj [("question", .num 5)])).result ≠ .ok (status, resp) := by
  refine ⟨rfl, ?_⟩
  intro status resp h
  rw [show (handle_answer (some ("k")) (.response 200 ("body") none)
    (.obj [("question", .num 5)])).result =
      .error (.otherExn ("AttributeError: object has no attribute strip")) from rfl] at h
  exact Except.noConfusion h

/-- The Answer Service never leaves an exception uncaught: some result dict
is always produced. -/
theorem generate_answer_ok (key : Option String) (q : String) (o : HttpOutcome) :
    ∃ r : AnswerResult, (generate_answer key q o).result = .ok r := by
  unfold generate_answer
  cases hkc : keyConfigured key with
  | false => exact ⟨_, rfl⟩
  | true =>
    simp only [Bool.not_true, Bool.false_eq_true, if_false]
    rcases h : tryBody o with e | r
    · rcases e with e | e
      · exact ⟨_, rfl⟩
      · exact ⟨_, rfl⟩
    · exact ⟨r, rfl⟩

/-- C4 (amended): for every inbound POST whose JSON body is an object whose
`question` field is absent or holds a string, the handler returns 400 with
`error = true` and no outbound call when the (stripped) question is empty or
missing, and otherwise returns the Answer Service verdict: status 500 when
the service result has `error = true` and 200 when it has `error = false`.
(When the body is not an object or `question` holds a non-string value, the
handler instead raises, as the counterexample shows.) -/
theorem handle_answer_status_mapping (key : Option String) (o : HttpOutcome) :
    (∀ kvs : List (String × Json), jlookup kvs ("question") = none →
      handle_answer key o (.obj kvs) = reject400) ∧
    (∀ (kvs : List (String × Json)) (q : String),
      jlookup kvs ("question") = some (.str q) →
      (pyStripString q = "" → handle_answer key o (.obj kvs) = reject400) ∧
      (pyStripString q ≠ "" → ∃ r : AnswerResult,
        (generate_answer key (preprocess_question (pyStripString q)) o).result = .ok r ∧
        handle_answer key o (.obj kvs) =
          ⟨.ok ((if r.error then 500 else 200),
            HandlerResponse.mk r.error r.answer
              (preprocess_question (pyStripString q)) none r.raw_response),
            (generate_answer key (preprocess_question (pyStripString q)) o).networkCalls⟩)) := by
  constructor
  · intro kvs h
    simp [handle_answer, pyGet, h, pyStripValue, pyStripString, pyStripChars, reject400]
  · intro kvs q h
    constructor
    · intro hq0
      simp [handle_answer, pyGet, h, pyStripValue, hq0, reject400]
    · intro hq0
      obtain ⟨r, hr⟩ := generate_answer_ok key (preprocess_question (pyStripString q)) o
      refine ⟨r, hr, ?_⟩
      simp [handle_answer, pyGet, h, pyStripValue, hq0, hr]

/-- Witness for C4 on a concrete non-empty question with no key configured:
the service reports an error and the handler maps it to status 500. -/
theorem handle_answer_status_mapping_witness :
    jlookup [("question", Json.str ("hi"))] ("question") = some (.str ("hi")) ∧
    pyStripString ("hi") ≠ "" ∧
    ∃ r : AnswerResult,
      (generate_answer none (preprocess_question (pyStripString ("hi")))
        (.requestError ("boom"))).result = .ok r ∧
      handle_answer none (.requestError ("boom"))
        (.obj [("question", .str ("hi"))]) =
        ⟨.ok ((if r.error then 500 else 200),
          HandlerResponse.mk r.error r.answer
            (preprocess_question (pyStripString ("hi"))) none r.raw_response),
          (generate_answer none (preprocess_question (pyStripString ("hi")))
            (.requestError ("boom"))).networkCalls⟩ :=
  ⟨rfl, by decide,
    ((handle_answer_status_mapping none (.requestError ("boom"))).2
      [("question", Json.str ("hi"))] ("hi") rfl).2 (by decide)⟩
